import Mathlib

/-!
Verification of the aerodynamics simulation (`aerodynamics` package).

This file shallowly embeds the core of the repository in Lean 4:

* `src/aerodynamics/constants.py`   — the physical constants;
* `src/aerodynamics/atmosphere.py`  — `air_density` and `pressure`;
* `src/aerodynamics/forces.py`      — lift/drag coefficients, dynamic
  pressure, and the four force computations;
* `src/aerodynamics/simulation.py`  — the simulation state, the
  state-to-params sync, and one Euler integration `step`.

Python floats are modelled by the real numbers; `x ** y` on a positive
base is real exponentiation (`Real.rpow`).  Python raises
`ZeroDivisionError` when a float is divided by `0.0`; the only division
in the core whose denominator can be zero is the axial-acceleration
division by `mass_kg` inside `step` (every other division has a
provably nonzero denominator: the constant `TEMP_SEA_LEVEL`, the
literal `180`, the guarded `π·e·AR`, and the `W`-guarded climb term).
`step` therefore returns an `Option`, `none` modelling the exception.
-/

namespace Aero

/-! Constants, from `src/aerodynamics/constants.py`. -/

noncomputable def GRAVITY : ℝ := 9.81

noncomputable def RHO_SEA_LEVEL : ℝ := 1.225

noncomputable def TEMP_SEA_LEVEL : ℝ := 288.15

noncomputable def LAPSE_RATE : ℝ := 0.0065

noncomputable def GAS_CONSTANT : ℝ := 287.05

noncomputable def PRESSURE_SEA_LEVEL : ℝ := 101325

/-! Atmosphere model, from `src/aerodynamics/atmosphere.py`. -/

/-- The troposphere density formula `RHO_SEA_LEVEL * (T/T0)**((g*M)/(R*L) - 1)`
with `T = TEMP_SEA_LEVEL - LAPSE_RATE * h`.  The source writes this
expression twice inside `air_density` (once at the argument altitude, once
at exactly 11000 m for the stratosphere boundary density `rho_11`); it is
factored out here verbatim. -/
noncomputable def tropo_density (h : ℝ) : ℝ :=
  RHO_SEA_LEVEL * ((TEMP_SEA_LEVEL - LAPSE_RATE * h) / TEMP_SEA_LEVEL) ^
    ((GRAVITY * 0.0289644) / (GAS_CONSTANT * LAPSE_RATE) - 1)

/-- Embedding of `air_density(altitude_m)`.  Note the source's stratosphere
branch multiplies `rho_11` by `2.718 ** (-0.000157 * (altitude_m - 11000))`:
the base is the numeric literal `2.718`, not `math.e`. -/
noncomputable def air_density (altitude_m : ℝ) : ℝ :=
  if altitude_m ≤ 0 then RHO_SEA_LEVEL
  else if altitude_m > 11000 then
    tropo_density 11000 * (2.718 : ℝ) ^ (-0.000157 * (altitude_m - 11000))
  else tropo_density altitude_m

/-- The stratosphere formula as the specification words it: the boundary
density at 11000 m decayed by a true exponential `e^(−0.000157·(h−11000))`
with `e` Euler's number.  Stated only to compare against `air_density`. -/
noncomputable def strat_density_spec (h : ℝ) : ℝ :=
  tropo_density 11000 * Real.exp (-0.000157 * (h - 11000))

/-- Embedding of `pressure(altitude_m)`. -/
noncomputable def pressure (altitude_m : ℝ) : ℝ :=
  if altitude_m ≤ 0 then PRESSURE_SEA_LEVEL
  else
    PRESSURE_SEA_LEVEL *
      ((TEMP_SEA_LEVEL - LAPSE_RATE * min altitude_m 11000) / TEMP_SEA_LEVEL) ^
        (-GRAVITY / (GAS_CONSTANT * LAPSE_RATE))

/-! Parameter record, from `src/aerodynamics/aircraft_params.py`. -/

structure AircraftParams where
  mass_kg : ℝ
  wing_area_m2 : ℝ
  aspect_ratio : ℝ
  cl_alpha : ℝ
  cd0 : ℝ
  oswald_efficiency : ℝ
  max_thrust_N : ℝ
  thrust_ratio : ℝ
  altitude_m : ℝ
  airspeed_m_s : ℝ
  angle_of_attack_deg : ℝ

/-- The default field values of the `AircraftParams` dataclass. -/
noncomputable def defaultParams : AircraftParams :=
  { mass_kg := 1000, wing_area_m2 := 20, aspect_ratio := 8,
    cl_alpha := 5.5, cd0 := 0.025, oswald_efficiency := 0.82,
    max_thrust_N := 5000, thrust_ratio := 1,
    altitude_m := 0, airspeed_m_s := 50, angle_of_attack_deg := 3 }

/-! Force model, from `src/aerodynamics/forces.py`. -/

/-- Embedding of `math.radians`: degrees to radians. -/
noncomputable def radians (deg : ℝ) : ℝ := deg * Real.pi / 180

/-- Embedding of `lift_coefficient(angle_of_attack_rad, cl_alpha)`. -/
noncomputable def lift_coefficient (angle_of_attack_rad cl_alpha : ℝ) : ℝ :=
  cl_alpha * angle_of_attack_rad

/-- Embedding of `drag_coefficient(cl, cd0, aspect_ratio, oswald_efficiency)`. -/
noncomputable def drag_coefficient (cl cd0 aspect_ratio oswald_efficiency : ℝ) : ℝ :=
  if aspect_ratio ≤ 0 ∨ oswald_efficiency ≤ 0 then cd0
  else cd0 + cl ^ 2 / (Real.pi * oswald_efficiency * aspect_ratio)

/-- Embedding of `dynamic_pressure(rho, velocity)`. -/
noncomputable def dynamic_pressure (rho velocity : ℝ) : ℝ :=
  0.5 * rho * velocity * velocity

/-- Embedding of `compute_lift(params)`. -/
noncomputable def compute_lift (params : AircraftParams) : ℝ :=
  dynamic_pressure (air_density params.altitude_m) params.airspeed_m_s *
    params.wing_area_m2 *
    lift_coefficient (radians params.angle_of_attack_deg) params.cl_alpha

/-- Embedding of `compute_drag(params)`. -/
noncomputable def compute_drag (params : AircraftParams) : ℝ :=
  dynamic_pressure (air_density params.altitude_m) params.airspeed_m_s *
    params.wing_area_m2 *
    drag_coefficient (lift_coefficient (radians params.angle_of_attack_deg) params.cl_alpha)
      params.cd0 params.aspect_ratio params.oswald_efficiency

/-- Embedding of `compute_thrust(params)`. -/
noncomputable def compute_thrust (params : AircraftParams) : ℝ :=
  params.max_thrust_N * max 0 (min 1 params.thrust_ratio)

/-- Embedding of `compute_weight(params)`. -/
noncomputable def compute_weight (params : AircraftParams) : ℝ :=
  params.mass_kg * GRAVITY

/-- Embedding of `compute_thrust_required(params)`. -/
noncomputable def compute_thrust_required (params : AircraftParams) : ℝ :=
  compute_drag params

/-! Simulation state and integrator, from `src/aerodynamics/simulation.py`. -/

structure SimulationState where
  altitude_m : ℝ
  airspeed_m_s : ℝ
  angle_of_attack_deg : ℝ
  time_s : ℝ
  lift_N : ℝ
  drag_N : ℝ
  thrust_N : ℝ
  weight_N : ℝ
  acceleration_m_s2 : ℝ

/-- The state built by `AerodynamicsSimulator.__init__`: altitude, airspeed
and angle of attack are copied from the parameter record, every other field
keeps the dataclass default `0.0`. -/
noncomputable def init_state (params : AircraftParams) : SimulationState :=
  { altitude_m := params.altitude_m,
    airspeed_m_s := params.airspeed_m_s,
    angle_of_attack_deg := params.angle_of_attack_deg,
    time_s := 0, lift_N := 0, drag_N := 0, thrust_N := 0, weight_N := 0,
    acceleration_m_s2 := 0 }

/-- Embedding of `sync_params_from_state`: overwrites the record's altitude,
airspeed and angle of attack from the state, leaving every other field. -/
noncomputable def sync_params_from_state (params : AircraftParams)
    (state : SimulationState) : AircraftParams :=
  { params with
    altitude_m := state.altitude_m,
    airspeed_m_s := state.airspeed_m_s,
    angle_of_attack_deg := state.angle_of_attack_deg }

/-- Embedding of `AerodynamicsSimulator.step`.  The simulator's fields
`params`, `state` and `dt_s` are passed explicitly; the returned pair is
the simulator's pair of fields after the call.  The division
`(T - D) / mass_kg` raises `ZeroDivisionError` in Python when
`mass_kg == 0.0`, modelled by `none`. -/
noncomputable def step (params : AircraftParams) (state : SimulationState)
    (dt_s : ℝ) : Option (AircraftParams × SimulationState) :=
  let p := sync_params_from_state params state
  if p.mass_kg = 0 then none
  else
    let L := compute_lift p
    let D := compute_drag p
    let T := compute_thrust p
    let W := compute_weight p
    let axial := (T - D) / p.mass_kg
    let v_new := max 5 (state.airspeed_m_s + axial * dt_s)
    let alt_new :=
      if W > 0 then
        max 0 (state.altitude_m + v_new * max (-0.5) (min 0.5 ((T - D) / W)) * dt_s)
      else state.altitude_m
    some (p, { state with
      lift_N := L, drag_N := D, thrust_N := T, weight_N := W,
      acceleration_m_s2 := axial,
      airspeed_m_s := v_new,
      altitude_m := alt_new,
      time_s := state.time_s + dt_s })

/-! Concrete parameter records used by counterexamples and witnesses. -/

/-- A zero-mass configuration: weight is 0, and `step` divides by mass. -/
noncomputable def zeroMassParams : AircraftParams :=
  { defaultParams with mass_kg := 0 }

/-- A negative-mass configuration starting below ground level. -/
noncomputable def negMassParams : AircraftParams :=
  { defaultParams with mass_kg := -1000, altitude_m := -10 }

/-- A configuration whose initial airspeed and altitude violate the claimed
state invariants. -/
noncomputable def slowLowParams : AircraftParams :=
  { defaultParams with airspeed_m_s := 3, altitude_m := -10 }

/-! Theorems. -/

/-- C4: `pressure` uses the single barometric formula with exponent
`-g/(R*L)` and the temperature law clamped at 11000 m; hence for every
altitude above 11000 m it equals `pressure 11000`, and for every
altitude at or below 0 it returns exactly 101325. -/
theorem pressure_single_formula :
    (∀ h : ℝ, h ≤ 0 → pressure h = 101325) ∧
    (∀ h : ℝ, 0 < h → pressure h =
      PRESSURE_SEA_LEVEL *
        ((TEMP_SEA_LEVEL - LAPSE_RATE * min h 11000) / TEMP_SEA_LEVEL) ^
          (-GRAVITY / (GAS_CONSTANT * LAPSE_RATE))) ∧
    (∀ h : ℝ, 11000 < h → pressure h = pressure 11000) := by
  refine ⟨fun h hh => ?_, fun h hh => ?_, fun h hh => ?_⟩
  · rw [pressure, if_pos hh, PRESSURE_SEA_LEVEL]
  · rw [pressure, if_neg (not_le.mpr hh)]
  · rw [pressure, pressure, if_neg (by linarith : ¬ h ≤ 0),
      if_neg (by norm_num : ¬ (11000 : ℝ) ≤ 0),
      min_self, min_eq_right (le_of_lt hh)]

/-- C5: at altitude exactly 11000 m, `air_density` takes the troposphere
branch (the formula `tropo_density`); for every positive altitude at most
11000 m it is the troposphere formula, and the stratosphere branch applies
only strictly above 11000 m. -/
theorem density_boundary_at_11000 :
    air_density 11000 = tropo_density 11000 ∧
    (∀ h : ℝ, 0 < h → h ≤ 11000 → air_density h = tropo_density h) ∧
    (∀ h : ℝ, 11000 < h → air_density h =
      tropo_density 11000 * (2.718 : ℝ) ^ (-0.000157 * (h - 11000))) := by
  refine ⟨?_, fun h h0 h1 => ?_, fun h hh => ?_⟩
  · rw [air_density, if_neg (by norm_num), if_neg (by norm_num)]
  · rw [air_density, if_neg (not_le.mpr h0), if_neg (not_lt.mpr h1)]
  · rw [air_density, if_neg (by linarith), if_pos hh]

/-- C6: `drag_coefficient` returns exactly `cd0` whenever the aspect ratio
or the Oswald efficiency is nonpositive, regardless of `cl`; otherwise it
returns `cd0 + cl^2 / (pi * oswald_efficiency * aspect_ratio)`. -/
theorem drag_coefficient_cases (cl cd0 ar e : ℝ) :
    (ar ≤ 0 ∨ e ≤ 0 → drag_coefficient cl cd0 ar e = cd0) ∧
    (0 < ar → 0 < e →
      drag_coefficient cl cd0 ar e = cd0 + cl ^ 2 / (Real.pi * e * ar)) := by
  constructor
  · intro h; rw [drag_coefficient, if_pos h]
  · intro h1 h2
    rw [drag_coefficient, if_neg (by push_neg; exact ⟨h1, h2⟩)]

/-- C8: `compute_thrust_required` equals `compute_drag` exactly, and its
value does not depend on the record's `max_thrust_N` and `thrust_ratio`
fields. -/
theorem thrust_required_eq_drag (p : AircraftParams) (mt tr : ℝ) :
    compute_thrust_required p = compute_drag p ∧
    compute_thrust_required { p with max_thrust_N := mt, thrust_ratio := tr } =
      compute_thrust_required p := by
  exact ⟨rfl, rfl⟩

/-- The boundary density `rho_11` is strictly positive. -/
theorem tropo_density_11000_pos : 0 < tropo_density 11000 := by
  have hb : (0 : ℝ) < (TEMP_SEA_LEVEL - LAPSE_RATE * 11000) / TEMP_SEA_LEVEL := by
    rw [TEMP_SEA_LEVEL, LAPSE_RATE]; norm_num
  exact mul_pos (by rw [RHO_SEA_LEVEL]; norm_num)
    (Real.rpow_pos_of_pos hb _)

/-- The natural logarithm of the literal `2.718` is strictly below 1. -/
theorem log_two_point_718_lt_one : Real.log 2.718 < 1 := by
  rw [Real.log_lt_iff_lt_exp (by norm_num : (0 : ℝ) < 2.718)]
  exact lt_trans (by norm_num) Real.exp_one_gt_d9

/-- C2, amended: for every altitude above 11000 m, `air_density` equals the
boundary density at 11000 m times `2.718` (the source's numeric literal,
not Euler's number) raised to `-0.000157 * (h - 11000)`. -/
theorem strat_density_literal_base (h : ℝ) (hh : 11000 < h) :
    air_density h = tropo_density 11000 * (2.718 : ℝ) ^ (-0.000157 * (h - 11000)) := by
  rw [air_density, if_neg (by linarith : ¬ h ≤ 0), if_pos hh]

/-- Witness for C2's amended theorem at altitude 12500 m. -/
theorem strat_density_literal_base_witness :
    (11000 : ℝ) < 12500 ∧
    air_density 12500 =
      tropo_density 11000 * (2.718 : ℝ) ^ (-0.000157 * ((12500 : ℝ) - 11000)) :=
  ⟨by norm_num, strat_density_literal_base 12500 (by norm_num)⟩

/-- Counterexample to C2 as stated: at 12000 m the code's value (base
`2.718`) differs from the spec's formula with Euler's number `e`. -/
theorem strat_density_not_exp : air_density 12000 ≠ strat_density_spec 12000 := by
  have hcode : air_density 12000 =
      tropo_density 11000 * (2.718 : ℝ) ^ (-0.000157 * ((12000 : ℝ) - 11000)) := by
    rw [air_density, if_neg (by norm_num), if_pos (by norm_num : (12000 : ℝ) > 11000)]
  rw [hcode, strat_density_spec]
  intro heq
  have hbase : ((2.718 : ℝ) ^ (-0.000157 * ((12000 : ℝ) - 11000))) =
      Real.exp (-0.000157 * ((12000 : ℝ) - 11000)) :=
    mul_left_cancel₀ (ne_of_gt tropo_density_11000_pos) heq
  rw [Real.rpow_def_of_pos (by norm_num : (0 : ℝ) < 2.718)] at hbase
  have harg : Real.log 2.718 * (-0.000157 * ((12000 : ℝ) - 11000)) =
      -0.000157 * ((12000 : ℝ) - 11000) := Real.exp_eq_exp.mp hbase
  have hzero : (Real.log 2.718 - 1) * (-0.000157 * ((12000 : ℝ) - 11000)) = 0 := by
    rw [sub_mul, one_mul, harg, sub_self]
  rcases mul_eq_zero.mp hzero with hlog | hc
  · have : Real.log 2.718 = 1 := by linarith
    exact absurd this (ne_of_lt log_two_point_718_lt_one)
  · norm_num at hc

/-- C1, amended: for every initial parameter record of nonzero mass and
every time step, building the simulator and stepping once returns exactly
the documented one-step formulas applied to the initial parameters:
`a = (T - D)/mass`, `v_new = max 5 (v + a*dt)`, the clamped-climb altitude
update guarded by `W > 0`, elapsed time `dt`, and the forces `L, D, T, W`
and `a` in the cached fields.  (For zero mass, `step` fails: see the
counterexample.) -/
theorem step_once_matches_formulas (p : AircraftParams) (dt : ℝ)
    (hm : p.mass_kg ≠ 0) :
    step p (init_state p) dt = some (p,
      { altitude_m :=
          if compute_weight p > 0 then
            max 0 (p.altitude_m +
              max 5 (p.airspeed_m_s + (compute_thrust p - compute_drag p) / p.mass_kg * dt) *
                max (-0.5) (min 0.5 ((compute_thrust p - compute_drag p) / compute_weight p)) *
                dt)
          else p.altitude_m,
        airspeed_m_s :=
          max 5 (p.airspeed_m_s + (compute_thrust p - compute_drag p) / p.mass_kg * dt),
        angle_of_attack_deg := p.angle_of_attack_deg,
        time_s := dt,
        lift_N := compute_lift p,
        drag_N := compute_drag p,
        thrust_N := compute_thrust p,
        weight_N := compute_weight p,
        acceleration_m_s2 := (compute_thrust p - compute_drag p) / p.mass_kg }) := by
  have h0 : sync_params_from_state p (init_state p) = p := rfl
  simp only [step]
  rw [h0, if_neg hm]
  simp only [init_state]
  norm_num

/-- Witness for C1's amended theorem at the default parameters. -/
theorem step_once_matches_formulas_witness :
    defaultParams.mass_kg ≠ 0 ∧
    (step defaultParams (init_state defaultParams) 0.1).isSome = true := by
  have hm : defaultParams.mass_kg ≠ 0 := by
    rw [defaultParams]; norm_num
  exact ⟨hm, by rw [step_once_matches_formulas defaultParams 0.1 hm]; rfl⟩

/-- Counterexample to C1 as stated: with zero mass the one-step round trip
does not yield any state at all — `step` raises `ZeroDivisionError`
(modelled as `none`) at the axial-acceleration division. -/
theorem step_once_zero_mass_fails :
    step zeroMassParams (init_state zeroMassParams) 0.1 = none := by
  simp only [step]
  rw [if_pos (show (sync_params_from_state zeroMassParams
    (init_state zeroMassParams)).mass_kg = 0 from rfl)]

/-- C3, amended: one integration step succeeds exactly when the mass is
nonzero; `step` with zero mass hits the unguarded division
`(T - D) / mass_kg` and fails, while every other listed edge case
(nonpositive aspect ratio or Oswald efficiency, negative mass, throttle
outside the unit interval, altitude above 11000 m) flows through total
functions of the embedding. -/
theorem step_isSome_iff_mass_ne_zero (p : AircraftParams) (s : SimulationState)
    (dt : ℝ) : (step p s dt).isSome ↔ p.mass_kg ≠ 0 := by
  simp only [step]
  by_cases hm : p.mass_kg = 0
  · rw [if_pos (show (sync_params_from_state p s).mass_kg = 0 from hm)]
    simp [hm]
  · rw [if_neg (show (sync_params_from_state p s).mass_kg ≠ 0 from hm)]
    simp [hm]

/-- Counterexample to C3 as stated: `step` on a zero-mass (hence
zero-weight) configuration does not complete. -/
theorem step_zero_mass_raises :
    step zeroMassParams (init_state defaultParams) 0.05 = none := by
  simp only [step]
  rw [if_pos (show (sync_params_from_state zeroMassParams
    (init_state defaultParams)).mass_kg = 0 from rfl)]

/-- C7, amended: after every successful `step`, the airspeed is at least
5.0; the altitude is at least 0.0 whenever the starting altitude was (for
weight at most 0 the altitude is simply kept, and for positive weight it
is floored at 0).  Construction does not enforce either bound: see the
counterexample. -/
theorem step_invariant (p : AircraftParams) (s : SimulationState) (dt : ℝ)
    (hm : p.mass_kg ≠ 0) :
    ∃ pr s2, step p s dt = some (pr, s2) ∧ 5 ≤ s2.airspeed_m_s ∧
      (0 ≤ s.altitude_m → 0 ≤ s2.altitude_m) := by
  simp only [step]
  rw [if_neg (show (sync_params_from_state p s).mass_kg ≠ 0 from hm)]
  refine ⟨_, _, rfl, le_max_left _ _, fun halt => ?_⟩
  by_cases hw : compute_weight (sync_params_from_state p s) > 0
  · rw [if_pos hw]
    exact le_max_left _ _
  · rw [if_neg hw]
    exact halt

/-- Witness for C7's amended theorem at the default parameters. -/
theorem step_invariant_witness :
    ∃ pr s2, step defaultParams (init_state defaultParams) 0.1 = some (pr, s2) ∧
      5 ≤ s2.airspeed_m_s ∧
      (0 ≤ (init_state defaultParams).altitude_m → 0 ≤ s2.altitude_m) :=
  step_invariant defaultParams (init_state defaultParams) 0.1
    (by rw [defaultParams]; norm_num)

/-- Counterexample to C7 as stated: the state produced at construction
copies the caller's airspeed and altitude unclamped, and a step under
nonpositive weight leaves a negative altitude in place. -/
theorem state_invariant_counterexample :
    ((init_state slowLowParams).airspeed_m_s < 5 ∧
      (init_state slowLowParams).altitude_m < 0) ∧
    (∃ pr s2, step negMassParams (init_state negMassParams) 0.1 = some (pr, s2) ∧
      s2.altitude_m < 0) := by
  refine ⟨⟨?_, ?_⟩, ?_⟩
  · show (3 : ℝ) < 5
    norm_num
  · show (-10 : ℝ) < 0
    norm_num
  · simp only [step]
    rw [if_neg (show (sync_params_from_state negMassParams
      (init_state negMassParams)).mass_kg ≠ 0 from by
        show (-1000 : ℝ) ≠ 0
        norm_num)]
    refine ⟨_, _, rfl, ?_⟩
    rw [if_neg (show ¬ compute_weight (sync_params_from_state negMassParams
      (init_state negMassParams)) > 0 from by
        show ¬ (-1000 : ℝ) * GRAVITY > 0
        rw [GRAVITY]; norm_num)]
    show (-10 : ℝ) < 0
    norm_num

/-- C9: a successful `step` leaves the state's angle of attack unchanged
and the parameter record's caller-controlled fields (mass, wing area,
aspect ratio, lift slope, zero-lift drag, Oswald efficiency, max thrust,
throttle) unchanged; the only parameter fields it writes are altitude,
airspeed and angle of attack, overwritten from the state. -/
theorem step_frame (p : AircraftParams) (s : SimulationState) (dt : ℝ)
    (hm : p.mass_kg ≠ 0) :
    ∃ pr s2, step p s dt = some (pr, s2) ∧
      s2.angle_of_attack_deg = s.angle_of_attack_deg ∧
      pr.mass_kg = p.mass_kg ∧ pr.wing_area_m2 = p.wing_area_m2 ∧
      pr.aspect_ratio = p.aspect_ratio ∧ pr.cl_alpha = p.cl_alpha ∧
      pr.cd0 = p.cd0 ∧ pr.oswald_efficiency = p.oswald_efficiency ∧
      pr.max_thrust_N = p.max_thrust_N ∧ pr.thrust_ratio = p.thrust_ratio ∧
      pr.altitude_m = s.altitude_m ∧ pr.airspeed_m_s = s.airspeed_m_s ∧
      pr.angle_of_attack_deg = s.angle_of_attack_deg := by
  simp only [step]
  rw [if_neg (show (sync_params_from_state p s).mass_kg ≠ 0 from hm)]
  exact ⟨_, _, rfl, rfl, rfl, rfl, rfl, rfl, rfl, rfl, rfl, rfl, rfl, rfl, rfl⟩

/-- Witness for C9 at the default parameters. -/
theorem step_frame_witness :
    ∃ pr s2, step defaultParams (init_state defaultParams) 0.2 = some (pr, s2) ∧
      s2.angle_of_attack_deg = (init_state defaultParams).angle_of_attack_deg ∧
      pr.mass_kg = defaultParams.mass_kg ∧
      pr.wing_area_m2 = defaultParams.wing_area_m2 ∧
      pr.aspect_ratio = defaultParams.aspect_ratio ∧
      pr.cl_alpha = defaultParams.cl_alpha ∧
      pr.cd0 = defaultParams.cd0 ∧
      pr.oswald_efficiency = defaultParams.oswald_efficiency ∧
      pr.max_thrust_N = defaultParams.max_thrust_N ∧
      pr.thrust_ratio = defaultParams.thrust_ratio ∧
      pr.altitude_m = (init_state defaultParams).altitude_m ∧
      pr.airspeed_m_s = (init_state defaultParams).airspeed_m_s ∧
      pr.angle_of_attack_deg = (init_state defaultParams).angle_of_attack_deg :=
  step_frame defaultParams (init_state defaultParams) 0.2
    (by rw [defaultParams]; norm_num)

/-- C10: after a successful `step`, the parameter record holds exactly the
altitude, airspeed and angle of attack the state had when the step began
(the record returned is precisely the state-to-params sync computed at the
start), while the returned state has already advanced by `dt`. -/
theorem params_lag_state (p : AircraftParams) (s : SimulationState) (dt : ℝ)
    (hm : p.mass_kg ≠ 0) :
    ∃ pr s2, step p s dt = some (pr, s2) ∧
      pr = sync_params_from_state p s ∧
      pr.altitude_m = s.altitude_m ∧ pr.airspeed_m_s = s.airspeed_m_s ∧
      pr.angle_of_attack_deg = s.angle_of_attack_deg ∧
      s2.time_s = s.time_s + dt := by
  simp only [step]
  rw [if_neg (show (sync_params_from_state p s).mass_kg ≠ 0 from hm)]
  exact ⟨_, _, rfl, rfl, rfl, rfl, rfl, rfl⟩

/-- Witness for C10 at the default parameters. -/
theorem params_lag_state_witness :
    ∃ pr s2, step defaultParams (init_state defaultParams) 0.5 = some (pr, s2) ∧
      pr = sync_params_from_state defaultParams (init_state defaultParams) ∧
      pr.altitude_m = (init_state defaultParams).altitude_m ∧
      pr.airspeed_m_s = (init_state defaultParams).airspeed_m_s ∧
      pr.angle_of_attack_deg = (init_state defaultParams).angle_of_attack_deg ∧
      s2.time_s = (init_state defaultParams).time_s + 0.5 :=
  params_lag_state defaultParams (init_state defaultParams) 0.5
    (by rw [defaultParams]; norm_num)

end Aero
